import Mathlib

/-!
Shallow embedding of the SFE_CC3000 wrapper (SFE_CC3000.cpp / common.h).

The source is a thin facade over the TI CC3000 host driver: a constructor
storing three pin numbers into globals, a one-time `init` bring-up routine,
two pass-through reads (`getFirmwareVersion`, `getMacAddress`) gated on the
`is_initialized_` flag, and a stub `connect` that returns `true`
unconditionally.

Modelling choices:
- The globals `g_int_pin`, `g_int_num`, `g_en_pin`, `g_cs_pin` and the member
  `is_initialized_` are folded into one state record `SFE_CC3000`; the
  constructor produces that record (globals have static storage, so
  `g_int_num` starts at 0).
- Hardware side effects (pinMode, digitalWrite, SPI configuration, driver
  calls, delay) are recorded as an explicit trace of `Effect` events in the
  order the source performs them.
- The compile-time platform `#if defined(__AVR_ATmega...)` branch is a
  Boolean parameter `platformSupported`: the source returns `false` from
  `init` when compiled for an unsupported microcontroller, before any
  hardware operation.
- The external driver (`utility/wlan.h`, `utility/nvmem.h`) is not under
  src/; its observable outcomes are modelled from the spec as oracle records
  (`WlanDriver`, `NvmemDriver`).
-/

/-- `#define CC3000_SUCCESS 0` from common.h. -/
def CC3000_SUCCESS : Nat := 0

/-- Arduino pin direction constants used by `pinMode`. -/
inductive PinDir where
  | INPUT
  | OUTPUT
  deriving DecidableEq, Repr

/-- Arduino pin level constants used by `digitalWrite`. -/
inductive PinLevel where
  | LOW
  | HIGH
  deriving DecidableEq, Repr

/-- Arduino SPI data-mode constants (clock phase/polarity). -/
inductive SpiDataMode where
  | SPI_MODE0
  | SPI_MODE1
  | SPI_MODE2
  | SPI_MODE3
  deriving DecidableEq, Repr

/-- Arduino SPI bit-order constants. -/
inductive SpiBitOrder where
  | LSBFIRST
  | MSBFIRST
  deriving DecidableEq, Repr

/-- Arduino SPI clock-divider constants (only the one the source uses,
plus another so equality is not vacuous). -/
inductive SpiClockDiv where
  | SPI_CLOCK_DIV2
  | SPI_CLOCK_DIV4
  deriving DecidableEq, Repr

/-- `#define SPI_CLK_DIV SPI_CLOCK_DIV2` from SFE_CC3000.cpp. -/
def SPI_CLK_DIV : SpiClockDiv := SpiClockDiv.SPI_CLOCK_DIV2

/-- One observable hardware / external-driver operation performed by the
wrapper, in source order. -/
inductive Effect where
  | pinMode (pin : Nat) (dir : PinDir)
  | digitalWrite (pin : Nat) (level : PinLevel)
  | spiBegin
  | spiSetDataMode (m : SpiDataMode)
  | spiSetBitOrder (o : SpiBitOrder)
  | spiSetClockDivider (d : SpiClockDiv)
  | wlanInit (callbacks : List String)
  | delay (ms : Nat)
  | wlanStart (patchesAvailable : Nat)
  | nvmemReadSpVersion
  | nvmemGetMacAddress
  deriving DecidableEq, Repr

/-- The eight callback references the source passes to `wlan_init`
(SFE_CC3000.cpp lines 151-158), in argument order. -/
def callbackRefs : List String :=
  [ "cc3000AsyncCallback",
    "sendFirmwarePatch",
    "sendDriverPatch",
    "sendBootLoaderPatch",
    "readWlanInterruptPin",
    "enableWlanInterrupt",
    "disableWlanInterrupt",
    "writeWlanPin" ]

/-- Device Handle state: the member `is_initialized_` together with the
process-wide pin globals the constructor writes and `init` reads. -/
structure SFE_CC3000 where
  is_initialized_ : Bool
  g_int_pin : Nat
  g_int_num : Nat
  g_en_pin : Nat
  g_cs_pin : Nat
  deriving DecidableEq, Repr

/-- Constructor `SFE_CC3000::SFE_CC3000(int_pin, en_pin, cs_pin)`: sets
`is_initialized_ = false` and stores the three pins into the globals.
`g_int_num` is a zero-initialised global the constructor does not touch. -/
def SFE_CC3000.construct (int_pin en_pin cs_pin : Nat) : SFE_CC3000 :=
  { is_initialized_ := false
    g_int_pin := int_pin
    g_int_num := 0
    g_en_pin := en_pin
    g_cs_pin := cs_pin }

/-- Modelled from the spec: outcomes of the external driver routines
`wlan_init` and `wlan_start` (declared in `utility/wlan.h`, which is not
under src/). The wrapper invokes both (spec section 4.1 steps 5 and 7) and
never inspects any outcome of theirs, so the record is carried but unread. -/
structure WlanDriver where
  init_outcome : Nat
  start_outcome : Nat
  deriving DecidableEq, Repr

/-- Modelled from the spec: the nvmem query functions of the external driver
(`utility/nvmem.h`, not under src/). Spec section 6: "a firmware-version
query function returning a platform status code (0 = success); a MAC-address
query function with the same status convention"; spec section 4.1: on
success the version record is 2 bytes (major, minor) and the MAC address is
6 bytes. -/
structure NvmemDriver where
  sp_version_status : Nat
  sp_major : Nat
  sp_minor : Nat
  mac_status : Nat
  mac0 : Nat
  mac1 : Nat
  mac2 : Nat
  mac3 : Nat
  mac4 : Nat
  mac5 : Nat
  deriving DecidableEq, Repr

/-- Modelled from the spec: `nvmem_read_sp_version` returns a status code
and fills a 2-byte buffer (major at index 0, minor at index 1). -/
def nvmem_read_sp_version (d : NvmemDriver) : Nat × List Nat :=
  (d.sp_version_status, [d.sp_major, d.sp_minor])

/-- Modelled from the spec: `nvmem_get_mac_address` returns a status code
and fills a 6-byte buffer. -/
def nvmem_get_mac_address (d : NvmemDriver) : Nat × List Nat :=
  (d.mac_status, [d.mac0, d.mac1, d.mac2, d.mac3, d.mac4, d.mac5])

/-- The hardware-effect trace of the successful bring-up path of
`SFE_CC3000::init` (SFE_CC3000.cpp lines 138-164), in source order:
pin configuration, SPI configuration, `wlan_init` with the eight callbacks,
the 100 ms settle delay, then `wlan_start(0)`. -/
def initTrace (s : SFE_CC3000) : List Effect :=
  [ Effect.pinMode s.g_int_pin PinDir.INPUT,
    Effect.pinMode s.g_en_pin PinDir.OUTPUT,
    Effect.pinMode s.g_cs_pin PinDir.OUTPUT,
    Effect.digitalWrite s.g_en_pin PinLevel.LOW,
    Effect.digitalWrite s.g_cs_pin PinLevel.LOW,
    Effect.spiBegin,
    Effect.spiSetDataMode SpiDataMode.SPI_MODE1,
    Effect.spiSetBitOrder SpiBitOrder.MSBFIRST,
    Effect.spiSetClockDivider SPI_CLK_DIV,
    Effect.wlanInit callbackRefs,
    Effect.delay 100,
    Effect.wlanStart 0 ]

/-- `SFE_CC3000::init()` (SFE_CC3000.cpp lines 102-169).
Returns the Boolean result, the post-state, and the trace of hardware
effects performed. If `is_initialized_` is already set it returns `true`
at once. On a supported platform the `switch (g_int_pin)` maps pin 2 to
interrupt number 0 and pin 3 to interrupt number 1 and any other pin
returns `false`; on an unsupported platform it returns `false` before the
switch. The successful path performs `initTrace`, sets `is_initialized_`,
and returns `true`; the `wd` outcomes are never read (the source ignores
whatever `wlan_init` / `wlan_start` do). -/
def SFE_CC3000.init (_wd : WlanDriver) (platformSupported : Bool)
    (s : SFE_CC3000) : Bool × SFE_CC3000 × List Effect :=
  if s.is_initialized_ then
    (true, s, [])
  else if platformSupported then
    if s.g_int_pin = 2 then
      let s2 := { s with g_int_num := 0 }
      (true, { s2 with is_initialized_ := true }, initTrace s2)
    else if s.g_int_pin = 3 then
      let s2 := { s with g_int_num := 1 }
      (true, { s2 with is_initialized_ := true }, initTrace s2)
    else
      (false, s, [])
  else
    (false, s, [])

/-- `SFE_CC3000::getFirmwareVersion(fw_ver)` (SFE_CC3000.cpp lines 177-190).
Returns the Boolean result, the bytes left in the caller buffer, and the
trace of external-driver calls. Fails with no driver call when
`is_initialized_` is false; otherwise calls `nvmem_read_sp_version` and
fails when its status differs from `CC3000_SUCCESS`. The member state is
never written, so no post-state is returned. -/
def SFE_CC3000.getFirmwareVersion (d : NvmemDriver) (s : SFE_CC3000) :
    Bool × List Nat × List Effect :=
  if !s.is_initialized_ then
    (false, [], [])
  else
    let r := nvmem_read_sp_version d
    if r.1 ≠ CC3000_SUCCESS then
      (false, r.2, [Effect.nvmemReadSpVersion])
    else
      (true, r.2, [Effect.nvmemReadSpVersion])

/-- `SFE_CC3000::getMacAddress(mac_addr)` (SFE_CC3000.cpp lines 198-211).
Same shape as `getFirmwareVersion`, delegating to `nvmem_get_mac_address`. -/
def SFE_CC3000.getMacAddress (d : NvmemDriver) (s : SFE_CC3000) :
    Bool × List Nat × List Effect :=
  if !s.is_initialized_ then
    (false, [], [])
  else
    let r := nvmem_get_mac_address d
    if r.1 ≠ CC3000_SUCCESS then
      (false, r.2, [Effect.nvmemGetMacAddress])
    else
      (true, r.2, [Effect.nvmemGetMacAddress])

/-- `SFE_CC3000::connect(ssid, password, sec)` (SFE_CC3000.cpp lines
222-225): the body is a single `return true;` — no member write, no
hardware or driver call. The state and trace are made explicit so the
absence of change is a theorem, not a convention. -/
def SFE_CC3000.connect (_ssid _password : String) (_sec : Nat)
    (s : SFE_CC3000) : Bool × SFE_CC3000 × List Effect :=
  (true, s, [])

/-- One caller-visible operation on a Device Handle, for reasoning about
operation sequences. Driver oracles and the platform flag travel with the
operation so a sequence may observe any driver behaviour. -/
inductive Op where
  | bringUp (wd : WlanDriver) (platformSupported : Bool)
  | readFw (d : NvmemDriver)
  | readMac (d : NvmemDriver)
  | connectOp (ssid password : String) (sec : Nat)
  deriving Repr

/-- State transition of one operation. `getFirmwareVersion`,
`getMacAddress` and `connect` write no member of the handle, so only
`bringUp` can change the state. -/
def stepOp (s : SFE_CC3000) : Op → SFE_CC3000
  | Op.bringUp wd p => (SFE_CC3000.init wd p s).2.1
  | Op.readFw _ => s
  | Op.readMac _ => s
  | Op.connectOp _ _ _ => s

/-- Run a sequence of operations from a state. -/
def runOps (s : SFE_CC3000) (ops : List Op) : SFE_CC3000 :=
  ops.foldl stepOp s

/-! ## Helper lemmas -/

/-- A successful `init` call leaves `is_initialized_` set. -/
theorem init_true_ready (wd : WlanDriver) (p : Bool) (s : SFE_CC3000)
    (h : (SFE_CC3000.init wd p s).1 = true) :
    (SFE_CC3000.init wd p s).2.1.is_initialized_ = true := by
  by_cases hr : s.is_initialized_ = true <;>
    by_cases h2 : s.g_int_pin = 2 <;>
      by_cases h3 : s.g_int_pin = 3 <;>
        cases p <;> simp_all [SFE_CC3000.init]

/-- If `init` starts from a non-ready state and ends ready, it returned
`true` (the failing branches leave the state untouched). -/
theorem init_flips_implies_true (wd : WlanDriver) (p : Bool) (s : SFE_CC3000)
    (hs : s.is_initialized_ = false)
    (h : (SFE_CC3000.init wd p s).2.1.is_initialized_ = true) :
    (SFE_CC3000.init wd p s).1 = true := by
  by_cases h2 : s.g_int_pin = 2 <;>
    by_cases h3 : s.g_int_pin = 3 <;>
      cases p <;> simp_all [SFE_CC3000.init]

/-- No single operation resets `is_initialized_` once it is set. -/
theorem stepOp_ready_mono (s : SFE_CC3000) (op : Op)
    (h : s.is_initialized_ = true) : (stepOp s op).is_initialized_ = true := by
  cases op with
  | bringUp wd p => simp [stepOp, SFE_CC3000.init, h]
  | readFw d => exact h
  | readMac d => exact h
  | connectOp a b c => exact h

/-- No operation sequence resets `is_initialized_` once it is set. -/
theorem runOps_ready_mono (more : List Op) (s : SFE_CC3000)
    (h : s.is_initialized_ = true) : (runOps s more).is_initialized_ = true := by
  induction more generalizing s with
  | nil => exact h
  | cons op rest ih => exact ih (stepOp s op) (stepOp_ready_mono s op h)

/-- If a run from a non-ready state ends ready, some `bringUp` in the
sequence ran from a non-ready state and returned `true` — a full, successful
bring-up. -/
theorem ready_first_bringup (ops : List Op) (s : SFE_CC3000)
    (hs : s.is_initialized_ = false)
    (h : (runOps s ops).is_initialized_ = true) :
    ∃ pre wd p post, ops = pre ++ Op.bringUp wd p :: post ∧
      (runOps s pre).is_initialized_ = false ∧
      (SFE_CC3000.init wd p (runOps s pre)).1 = true := by
  induction ops generalizing s with
  | nil => simp_all [runOps]
  | cons op rest ih =>
    cases hb : (stepOp s op).is_initialized_ with
    | true =>
      cases op with
      | bringUp wd p =>
        refine ⟨[], wd, p, rest, rfl, ?_, ?_⟩
        · exact hs
        · exact init_flips_implies_true wd p s hs (by simpa [stepOp] using hb)
      | readFw d => exact absurd hb (by simp [stepOp, hs])
      | readMac d => exact absurd hb (by simp [stepOp, hs])
      | connectOp a b c => exact absurd hb (by simp [stepOp, hs])
    | false =>
      obtain ⟨pre, wd, p, post, heq, hpre, hinit⟩ := ih (stepOp s op) hb h
      exact ⟨op :: pre, wd, p, post, by simp [heq], hpre, hinit⟩

/-! ## Claim theorems -/

/-- C1: for every ssid, password and security type and in every handle
state, `connect` returns success, performs no network operation (empty
effect trace) and changes no state of the handle. -/
theorem connect_always_true_no_effect (ssid password : String) (sec : Nat)
    (s : SFE_CC3000) :
    SFE_CC3000.connect ssid password sec s = (true, s, []) := rfl

/-- C2: for every handle constructed with an interrupt pin other than 2 or
3, `init` returns failure and `is_initialized_` remains false, on supported
and unsupported platforms alike. -/
theorem init_unsupported_int_pin_fails (wd : WlanDriver) (p : Bool)
    (int_pin en_pin cs_pin : Nat) (h2 : int_pin ≠ 2) (h3 : int_pin ≠ 3) :
    (SFE_CC3000.init wd p (SFE_CC3000.construct int_pin en_pin cs_pin)).1 = false ∧
    (SFE_CC3000.init wd p
      (SFE_CC3000.construct int_pin en_pin cs_pin)).2.1.is_initialized_ = false := by
  cases p <;> simp [SFE_CC3000.init, SFE_CC3000.construct, h2, h3]

theorem init_unsupported_int_pin_fails_witness :
    (SFE_CC3000.init ⟨0, 0⟩ true (SFE_CC3000.construct 5 7 10)).1 = false ∧
    (SFE_CC3000.init ⟨0, 0⟩ true
      (SFE_CC3000.construct 5 7 10)).2.1.is_initialized_ = false :=
  init_unsupported_int_pin_fails ⟨0, 0⟩ true 5 7 10 (by decide) (by decide)

/-- C3: after any successful `init`, every subsequent `init` call — with any
driver outcomes and on any platform — returns success immediately, changes
nothing, and performs no hardware or driver operation (empty trace). -/
theorem init_idempotent_after_success (wd wd2 : WlanDriver) (p p2 : Bool)
    (s : SFE_CC3000) (h : (SFE_CC3000.init wd p s).1 = true) :
    SFE_CC3000.init wd2 p2 (SFE_CC3000.init wd p s).2.1 =
      (true, (SFE_CC3000.init wd p s).2.1, []) := by
  have hr := init_true_ready wd p s h
  generalize (SFE_CC3000.init wd p s).2.1 = t at hr ⊢
  simp [SFE_CC3000.init, hr]

theorem init_idempotent_after_success_witness :
    SFE_CC3000.init ⟨0, 0⟩ false
        (SFE_CC3000.init ⟨0, 0⟩ true (SFE_CC3000.construct 2 7 10)).2.1 =
      (true, (SFE_CC3000.init ⟨0, 0⟩ true (SFE_CC3000.construct 2 7 10)).2.1, []) :=
  init_idempotent_after_success ⟨0, 0⟩ ⟨0, 0⟩ true false
    (SFE_CC3000.construct 2 7 10) (by decide)

/-- C4: whenever `is_initialized_` is false, `getFirmwareVersion` and
`getMacAddress` both return failure with no bytes and no external-driver
call (empty trace), for every driver oracle. -/
theorem reads_fail_when_not_ready (d : NvmemDriver) (s : SFE_CC3000)
    (h : s.is_initialized_ = false) :
    SFE_CC3000.getFirmwareVersion d s = (false, [], []) ∧
    SFE_CC3000.getMacAddress d s = (false, [], []) := by
  simp [SFE_CC3000.getFirmwareVersion, SFE_CC3000.getMacAddress, h]

theorem reads_fail_when_not_ready_witness :
    SFE_CC3000.getFirmwareVersion ⟨0, 1, 2, 0, 1, 2, 3, 4, 5, 6⟩
        (SFE_CC3000.construct 2 7 10) = (false, [], []) ∧
    SFE_CC3000.getMacAddress ⟨0, 1, 2, 0, 1, 2, 3, 4, 5, 6⟩
        (SFE_CC3000.construct 2 7 10) = (false, [], []) :=
  reads_fail_when_not_ready ⟨0, 1, 2, 0, 1, 2, 3, 4, 5, 6⟩
    (SFE_CC3000.construct 2 7 10) rfl

/-- C5: with `is_initialized_` true, `getFirmwareVersion` succeeds iff the
driver status for the firmware-version query is `CC3000_SUCCESS` (0), and
`getMacAddress` succeeds iff the MAC-query status is `CC3000_SUCCESS`;
every non-zero status is reported as failure. -/
theorem reads_success_iff_status_zero (d : NvmemDriver) (s : SFE_CC3000)
    (h : s.is_initialized_ = true) :
    ((SFE_CC3000.getFirmwareVersion d s).1 = true ↔
        d.sp_version_status = CC3000_SUCCESS) ∧
    ((SFE_CC3000.getMacAddress d s).1 = true ↔
        d.mac_status = CC3000_SUCCESS) := by
  constructor <;>
    · simp only [SFE_CC3000.getFirmwareVersion, SFE_CC3000.getMacAddress,
        nvmem_read_sp_version, nvmem_get_mac_address, h]
      split_ifs with hc <;> simp_all

theorem reads_success_iff_status_zero_witness :
    ((SFE_CC3000.getFirmwareVersion ⟨0, 1, 2, 3, 10, 20, 30, 40, 50, 60⟩
        ⟨true, 2, 0, 7, 10⟩).1 = true ↔
      (NvmemDriver.mk 0 1 2 3 10 20 30 40 50 60).sp_version_status = CC3000_SUCCESS) ∧
    ((SFE_CC3000.getMacAddress ⟨0, 1, 2, 3, 10, 20, 30, 40, 50, 60⟩
        ⟨true, 2, 0, 7, 10⟩).1 = true ↔
      (NvmemDriver.mk 0 1 2 3 10 20 30 40 50 60).mac_status = CC3000_SUCCESS) :=
  reads_success_iff_status_zero ⟨0, 1, 2, 3, 10, 20, 30, 40, 50, 60⟩
    ⟨true, 2, 0, 7, 10⟩ rfl

/-- C6: for every operation sequence on a freshly constructed handle, if
`is_initialized_` ends up true then some earlier `bringUp` ran from a
non-ready state and returned success (a complete bring-up), and once true
no further operation sequence ever resets it to false. -/
theorem ready_origin_and_never_reset (int_pin en_pin cs_pin : Nat)
    (ops : List Op)
    (h : (runOps (SFE_CC3000.construct int_pin en_pin cs_pin) ops).is_initialized_ = true) :
    (∃ pre wd p post, ops = pre ++ Op.bringUp wd p :: post ∧
        (runOps (SFE_CC3000.construct int_pin en_pin cs_pin) pre).is_initialized_ = false ∧
        (SFE_CC3000.init wd p
          (runOps (SFE_CC3000.construct int_pin en_pin cs_pin) pre)).1 = true) ∧
    (∀ more : List Op,
        (runOps (runOps (SFE_CC3000.construct int_pin en_pin cs_pin) ops)
          more).is_initialized_ = true) :=
  ⟨ready_first_bringup ops _ rfl h, fun more => runOps_ready_mono more _ h⟩

theorem ready_origin_and_never_reset_witness :
    (∃ pre wd p post,
        [Op.bringUp (⟨0, 0⟩ : WlanDriver) true] = pre ++ Op.bringUp wd p :: post ∧
        (runOps (SFE_CC3000.construct 2 7 10) pre).is_initialized_ = false ∧
        (SFE_CC3000.init wd p
          (runOps (SFE_CC3000.construct 2 7 10) pre)).1 = true) ∧
    (∀ more : List Op,
        (runOps (runOps (SFE_CC3000.construct 2 7 10)
          [Op.bringUp (⟨0, 0⟩ : WlanDriver) true]) more).is_initialized_ = true) :=
  ready_origin_and_never_reset 2 7 10 [Op.bringUp ⟨0, 0⟩ true] (by decide)

/-- C7 counterexample: at the concrete first bring-up
`init (construct 2 7 10)` on a supported platform, the driver-initialization
event in the effect trace carries eight callback references, not seven as
the claim states. -/
theorem init_callback_count_not_seven :
    (SFE_CC3000.init ⟨0, 0⟩ true (SFE_CC3000.construct 2 7 10)).2.2.get? 9 =
      some (Effect.wlanInit callbackRefs) ∧
    callbackRefs.length = 8 ∧ ¬ (callbackRefs.length = 7) := by decide

/-- C7 amended: for every first `init` call that passes the interrupt-pin
and platform validation, the bring-up effects occur in exactly this order —
interrupt pin as input, enable and chip-select pins as outputs driven low,
SPI begin / data mode 1 / MSB-first / fixed clock divider, `wlan_init` with
its EIGHT callback references, a 100 ms delay, `wlan_start(0)` — and the
call returns success with `is_initialized_` set. -/
theorem init_sequence_order (wd : WlanDriver) (s : SFE_CC3000)
    (hr : s.is_initialized_ = false)
    (hpin : s.g_int_pin = 2 ∨ s.g_int_pin = 3) :
    (SFE_CC3000.init wd true s).1 = true ∧
    (SFE_CC3000.init wd true s).2.1.is_initialized_ = true ∧
    (SFE_CC3000.init wd true s).2.2 =
      [ Effect.pinMode s.g_int_pin PinDir.INPUT,
        Effect.pinMode s.g_en_pin PinDir.OUTPUT,
        Effect.pinMode s.g_cs_pin PinDir.OUTPUT,
        Effect.digitalWrite s.g_en_pin PinLevel.LOW,
        Effect.digitalWrite s.g_cs_pin PinLevel.LOW,
        Effect.spiBegin,
        Effect.spiSetDataMode SpiDataMode.SPI_MODE1,
        Effect.spiSetBitOrder SpiBitOrder.MSBFIRST,
        Effect.spiSetClockDivider SpiClockDiv.SPI_CLOCK_DIV2,
        Effect.wlanInit callbackRefs,
        Effect.delay 100,
        Effect.wlanStart 0 ] ∧
    callbackRefs.length = 8 := by
  rcases hpin with hp | hp <;>
    simp [SFE_CC3000.init, initTrace, SPI_CLK_DIV, hr, hp, callbackRefs]

theorem init_sequence_order_witness :
    (SFE_CC3000.init ⟨0, 0⟩ true ⟨false, 3, 0, 8, 9⟩).1 = true ∧
    (SFE_CC3000.init ⟨0, 0⟩ true ⟨false, 3, 0, 8, 9⟩).2.1.is_initialized_ = true ∧
    (SFE_CC3000.init ⟨0, 0⟩ true ⟨false, 3, 0, 8, 9⟩).2.2 =
      [ Effect.pinMode (SFE_CC3000.mk false 3 0 8 9).g_int_pin PinDir.INPUT,
        Effect.pinMode (SFE_CC3000.mk false 3 0 8 9).g_en_pin PinDir.OUTPUT,
        Effect.pinMode (SFE_CC3000.mk false 3 0 8 9).g_cs_pin PinDir.OUTPUT,
        Effect.digitalWrite (SFE_CC3000.mk false 3 0 8 9).g_en_pin PinLevel.LOW,
        Effect.digitalWrite (SFE_CC3000.mk false 3 0 8 9).g_cs_pin PinLevel.LOW,
        Effect.spiBegin,
        Effect.spiSetDataMode SpiDataMode.SPI_MODE1,
        Effect.spiSetBitOrder SpiBitOrder.MSBFIRST,
        Effect.spiSetClockDivider SpiClockDiv.SPI_CLOCK_DIV2,
        Effect.wlanInit callbackRefs,
        Effect.delay 100,
        Effect.wlanStart 0 ] ∧
    callbackRefs.length = 8 :=
  init_sequence_order ⟨0, 0⟩ ⟨false, 3, 0, 8, 9⟩ rfl (Or.inr rfl)

/-- C8: with `is_initialized_` true and the driver reporting success for
both queries, `getFirmwareVersion` returns exactly the 2 bytes
[major, minor] and `getMacAddress` returns exactly 6 bytes. -/
theorem reads_byte_counts (d : NvmemDriver) (s : SFE_CC3000)
    (h : s.is_initialized_ = true)
    (hfw : d.sp_version_status = CC3000_SUCCESS)
    (hmac : d.mac_status = CC3000_SUCCESS) :
    (SFE_CC3000.getFirmwareVersion d s).1 = true ∧
    (SFE_CC3000.getFirmwareVersion d s).2.1 = [d.sp_major, d.sp_minor] ∧
    (SFE_CC3000.getFirmwareVersion d s).2.1.length = 2 ∧
    (SFE_CC3000.getMacAddress d s).1 = true ∧
    (SFE_CC3000.getMacAddress d s).2.1.length = 6 := by
  simp [SFE_CC3000.getFirmwareVersion, SFE_CC3000.getMacAddress,
    nvmem_read_sp_version, nvmem_get_mac_address, h, hfw, hmac]

theorem reads_byte_counts_witness :
    (SFE_CC3000.getFirmwareVersion ⟨0, 1, 24, 0, 8, 0, 28, 87, 65, 43⟩
        ⟨true, 2, 0, 7, 10⟩).1 = true ∧
    (SFE_CC3000.getFirmwareVersion ⟨0, 1, 24, 0, 8, 0, 28, 87, 65, 43⟩
        ⟨true, 2, 0, 7, 10⟩).2.1 =
      [(NvmemDriver.mk 0 1 24 0 8 0 28 87 65 43).sp_major,
       (NvmemDriver.mk 0 1 24 0 8 0 28 87 65 43).sp_minor] ∧
    (SFE_CC3000.getFirmwareVersion ⟨0, 1, 24, 0, 8, 0, 28, 87, 65, 43⟩
        ⟨true, 2, 0, 7, 10⟩).2.1.length = 2 ∧
    (SFE_CC3000.getMacAddress ⟨0, 1, 24, 0, 8, 0, 28, 87, 65, 43⟩
        ⟨true, 2, 0, 7, 10⟩).1 = true ∧
    (SFE_CC3000.getMacAddress ⟨0, 1, 24, 0, 8, 0, 28, 87, 65, 43⟩
        ⟨true, 2, 0, 7, 10⟩).2.1.length = 6 :=
  reads_byte_counts ⟨0, 1, 24, 0, 8, 0, 28, 87, 65, 43⟩
    ⟨true, 2, 0, 7, 10⟩ rfl rfl rfl

/-- C9: on a supported platform, for every freshly constructed handle whose
interrupt pin is 2 or 3, the first `init` call returns success and leaves
`is_initialized_` true, for every external-driver outcome record. -/
theorem init_good_pin_succeeds (wd : WlanDriver) (int_pin en_pin cs_pin : Nat)
    (hpin : int_pin = 2 ∨ int_pin = 3) :
    (SFE_CC3000.init wd true (SFE_CC3000.construct int_pin en_pin cs_pin)).1 = true ∧
    (SFE_CC3000.init wd true
      (SFE_CC3000.construct int_pin en_pin cs_pin)).2.1.is_initialized_ = true := by
  rcases hpin with hp | hp <;> subst hp <;>
    simp [SFE_CC3000.init, SFE_CC3000.construct]

theorem init_good_pin_succeeds_witness :
    (SFE_CC3000.init ⟨3, 4⟩ true (SFE_CC3000.construct 2 7 10)).1 = true ∧
    (SFE_CC3000.init ⟨3, 4⟩ true
      (SFE_CC3000.construct 2 7 10)).2.1.is_initialized_ = true :=
  init_good_pin_succeeds ⟨3, 4⟩ 2 7 10 (Or.inl rfl)

/-- C10: whenever `init` returns failure — unsupported interrupt pin or
unsupported platform — the handle state is exactly unchanged and the effect
trace is empty: no pin configuration, no pin write, no SPI configuration,
no driver call and no delay happened. -/
theorem init_failure_no_side_effects (wd : WlanDriver) (p : Bool)
    (s : SFE_CC3000) (h : (SFE_CC3000.init wd p s).1 = false) :
    (SFE_CC3000.init wd p s).2.1 = s ∧ (SFE_CC3000.init wd p s).2.2 = [] := by
  by_cases hr : s.is_initialized_ = true <;>
    by_cases h2 : s.g_int_pin = 2 <;>
      by_cases h3 : s.g_int_pin = 3 <;>
        cases p <;> simp_all [SFE_CC3000.init]

theorem init_failure_no_side_effects_witness :
    (SFE_CC3000.init ⟨0, 0⟩ true (SFE_CC3000.construct 5 7 10)).2.1 =
      SFE_CC3000.construct 5 7 10 ∧
    (SFE_CC3000.init ⟨0, 0⟩ true (SFE_CC3000.construct 5 7 10)).2.2 = [] :=
  init_failure_no_side_effects ⟨0, 0⟩ true (SFE_CC3000.construct 5 7 10)
    (by decide)
